import Mathlib

/-
Verification of the water-level task generator.

The development shallowly embeds the arithmetic core of the repository:
`_generate_task_data` (src/generator.py, lines 54-96), the transition-frame
interpolation of `_generate_video` (lines 264-291), and
`VideoGenerator.create_video_from_frames` (core/video_utils.py, lines 34-62).
Python integers become ℤ, Python floats become ℚ (the float quantities here
are ratios of small integers, far from any rounding tie, so exact rational
arithmetic is faithful), and Python `int()` becomes `pyInt`, truncation
toward zero. Random draws become explicit parameters constrained by the
ranges they are drawn from; `random.randint` with an empty range raises, so
the fallible sampling pipeline returns `Except`.
-/

namespace WaterLevel

/-- Python `int()` applied to a rational: truncation toward zero. -/
def pyInt (q : ℚ) : ℤ :=
  if q < 0 then ⌈q⌉ else ⌊q⌋

theorem pyInt_of_nonneg {q : ℚ} (h : 0 ≤ q) : pyInt q = ⌊q⌋ := by
  unfold pyInt
  rw [if_neg (not_lt.mpr h)]

theorem pyInt_intCast (z : ℤ) : pyInt (z : ℚ) = z := by
  unfold pyInt
  split
  · exact Int.ceil_intCast z
  · exact Int.floor_intCast z

theorem pyInt_nonneg {q : ℚ} (h : 0 ≤ q) : 0 ≤ pyInt q := by
  rw [pyInt_of_nonneg h]
  exact Int.floor_nonneg.mpr h

/-- Truncation differs from its argument by strictly less than one. -/
theorem abs_sub_pyInt_lt_one (q : ℚ) : |q - (pyInt q : ℚ)| < 1 := by
  rw [abs_sub_lt_iff]
  unfold pyInt
  split
  · constructor
    · have := Int.le_ceil q
      linarith
    · have := Int.ceil_lt_add_one q
      linarith
  · constructor
    · have := Int.lt_floor_add_one q
      linarith
    · have := Int.floor_le q
      linarith

theorem pyInt_mono {q r : ℚ} (h : q ≤ r) : pyInt q ≤ pyInt r := by
  unfold pyInt
  split_ifs with hq hr hr
  · exact Int.ceil_mono h
  · calc ⌈q⌉ ≤ (0 : ℤ) := Int.ceil_le.mpr (by exact_mod_cast le_of_lt hq)
      _ ≤ ⌊r⌋ := Int.floor_nonneg.mpr (not_lt.mp hr)
  · exact absurd (lt_of_le_of_lt h hr) hq
  · exact Int.floor_mono h

/-- Configuration fields consumed by `_generate_task_data` (src/config.py).
`TaskConfig` declares only typed fields and no cross-field validators, so
constructing a configuration never checks the sampling bounds against each
other. -/
structure TaskConfig where
  min_container_width : ℤ
  max_container_width : ℤ
  container_height : ℤ
  min_fill_ratio : ℚ
  max_fill_ratio : ℚ
deriving DecidableEq

/-- The dictionary returned by `_generate_task_data` (the spec calls it
PhysicalState), without the constant `type` tag. -/
structure PhysicalState where
  source_width : ℤ
  source_height : ℤ
  source_water_height : ℤ
  target_width : ℤ
  target_height : ℤ
  target_water_height : ℤ
  water_volume : ℤ
deriving DecidableEq

/-- The overflow test of line 78: the provisional rational target water
height `water_volume / target_width` exceeds `target_height`. -/
def overflows (cfg : TaskConfig) (source_width target_width : ℤ)
    (source_fill : ℚ) : Prop :=
  ((source_width * pyInt ((cfg.container_height : ℚ) * source_fill) : ℤ) : ℚ) /
      (target_width : ℚ) > (cfg.container_height : ℚ)

instance (cfg : TaskConfig) (sw tw : ℤ) (fill : ℚ) :
    Decidable (overflows cfg sw tw fill) := by
  unfold overflows
  infer_instance

/-- Lines 57-96 of `_generate_task_data` with the three random draws
replaced by parameters: `source_width` and `target_width` stand for the
accepted `randint` results and `source_fill` for the `random.uniform`
result. Division is exact rational division (Python float division; the
operands here are small integers, so `int()` of the float quotient equals
`pyInt` of the exact quotient). -/
def computeTaskData (cfg : TaskConfig) (source_width target_width : ℤ)
    (source_fill : ℚ) : PhysicalState :=
  let source_height := cfg.container_height
  let target_height := cfg.container_height
  let source_water_height := pyInt ((source_height : ℚ) * source_fill)
  let water_volume := source_width * source_water_height
  let target_water_height : ℚ := (water_volume : ℚ) / (target_width : ℚ)
  if target_water_height > (target_height : ℚ) then
    let target_water_height : ℤ := target_height
    let water_volume := target_width * target_water_height
    let source_water_height := pyInt ((water_volume : ℚ) / (source_width : ℚ))
    { source_width := source_width
      source_height := source_height
      source_water_height := source_water_height
      target_width := target_width
      target_height := target_height
      target_water_height := pyInt ((target_water_height : ℤ) : ℚ)
      water_volume := water_volume }
  else
    { source_width := source_width
      source_height := source_height
      source_water_height := source_water_height
      target_width := target_width
      target_height := target_height
      target_water_height := pyInt target_water_height
      water_volume := water_volume }

/-- Unsigned difference between the two final width-times-height products. -/
def volumeDiscrepancy (s : PhysicalState) : ℤ :=
  |s.source_width * s.source_water_height - s.target_width * s.target_water_height|

theorem computeTaskData_of_overflows (cfg : TaskConfig) (sw tw : ℤ) (fill : ℚ)
    (h : overflows cfg sw tw fill) :
    computeTaskData cfg sw tw fill =
      { source_width := sw
        source_height := cfg.container_height
        source_water_height :=
          pyInt (((tw * cfg.container_height : ℤ) : ℚ) / (sw : ℚ))
        target_width := tw
        target_height := cfg.container_height
        target_water_height := cfg.container_height
        water_volume := tw * cfg.container_height } := by
  unfold overflows at h
  simp only [computeTaskData]
  rw [if_pos h, pyInt_intCast]

theorem computeTaskData_of_not_overflows (cfg : TaskConfig) (sw tw : ℤ) (fill : ℚ)
    (h : ¬ overflows cfg sw tw fill) :
    computeTaskData cfg sw tw fill =
      { source_width := sw
        source_height := cfg.container_height
        source_water_height := pyInt ((cfg.container_height : ℚ) * fill)
        target_width := tw
        target_height := cfg.container_height
        target_water_height :=
          pyInt (((sw * pyInt ((cfg.container_height : ℚ) * fill) : ℤ) : ℚ) /
            (tw : ℚ))
        water_volume := sw * pyInt ((cfg.container_height : ℚ) * fill) } := by
  unfold overflows at h
  simp only [computeTaskData]
  rw [if_neg h]

/-- Truncating an integer quotient loses strictly less than one divisor. -/
theorem abs_sub_mul_pyInt_div_lt (V w : ℤ) (hw : 0 < w) :
    |V - w * pyInt ((V : ℚ) / (w : ℚ))| < w := by
  have hwQ : (0 : ℚ) < (w : ℚ) := by exact_mod_cast hw
  set t : ℤ := pyInt ((V : ℚ) / (w : ℚ)) with ht
  have h1 : |(V : ℚ) / (w : ℚ) - (t : ℚ)| < 1 := abs_sub_pyInt_lt_one _
  have h2 : |(V : ℚ) - (w : ℚ) * (t : ℚ)| < (w : ℚ) := by
    have heq : (V : ℚ) - (w : ℚ) * (t : ℚ) =
        (w : ℚ) * ((V : ℚ) / (w : ℚ) - (t : ℚ)) := by
      field_simp
    rw [heq, abs_mul, abs_of_pos hwQ]
    calc (w : ℚ) * |(V : ℚ) / (w : ℚ) - (t : ℚ)|
        < (w : ℚ) * 1 := mul_lt_mul_of_pos_left h1 hwQ
      _ = (w : ℚ) := mul_one _
  exact_mod_cast h2

/-- C1: volume conservation with truncation tolerance. For every state
produced by `_generate_task_data` under the stated sampling preconditions,
the absolute discrepancy between `source_width * source_water_height` and
`target_width * target_water_height` is strictly below `source_width` in
the clamped branch and strictly below `target_width` otherwise. -/
theorem volume_conservation (cfg : TaskConfig) (sw tw : ℤ) (fill : ℚ)
    (hmin : 1 ≤ cfg.min_container_width)
    (hsw1 : cfg.min_container_width ≤ sw) (hsw2 : sw ≤ cfg.max_container_width)
    (htw1 : cfg.min_container_width ≤ tw) (htw2 : tw ≤ cfg.max_container_width)
    (hf0 : 0 ≤ cfg.min_fill_ratio) (hf1 : cfg.min_fill_ratio ≤ fill)
    (hf2 : fill ≤ cfg.max_fill_ratio) (hf3 : cfg.max_fill_ratio ≤ 1) :
    (overflows cfg sw tw fill →
        volumeDiscrepancy (computeTaskData cfg sw tw fill) < sw) ∧
    (¬ overflows cfg sw tw fill →
        volumeDiscrepancy (computeTaskData cfg sw tw fill) < tw) := by
  have hswpos : 0 < sw := lt_of_lt_of_le hmin hsw1
  have htwpos : 0 < tw := lt_of_lt_of_le hmin htw1
  constructor
  · intro h
    rw [computeTaskData_of_overflows cfg sw tw fill h]
    unfold volumeDiscrepancy
    rw [abs_sub_comm]
    exact abs_sub_mul_pyInt_div_lt (tw * cfg.container_height) sw hswpos
  · intro h
    rw [computeTaskData_of_not_overflows cfg sw tw fill h]
    unfold volumeDiscrepancy
    exact abs_sub_mul_pyInt_div_lt
      (sw * pyInt ((cfg.container_height : ℚ) * fill)) tw htwpos

/-- Default configuration values of src/config.py. -/
def cfgDefault : TaskConfig :=
  { min_container_width := 60
    max_container_width := 150
    container_height := 200
    min_fill_ratio := 3 / 10
    max_fill_ratio := 8 / 10 }

/-- Witness for C1 at the default configuration, the worked spec example
source width 100, target width 60, fill ratio one half. -/
theorem volume_conservation_witness :
    (overflows cfgDefault 100 60 (1 / 2) →
        volumeDiscrepancy (computeTaskData cfgDefault 100 60 (1 / 2)) < 100) ∧
    (¬ overflows cfgDefault 100 60 (1 / 2) →
        volumeDiscrepancy (computeTaskData cfgDefault 100 60 (1 / 2)) < 60) :=
  volume_conservation cfgDefault 100 60 (1 / 2) (by norm_num [cfgDefault])
    (by norm_num [cfgDefault]) (by norm_num [cfgDefault])
    (by norm_num [cfgDefault]) (by norm_num [cfgDefault])
    (by norm_num [cfgDefault]) (by norm_num [cfgDefault])
    (by norm_num [cfgDefault]) (by norm_num [cfgDefault])

/-- C2: overflow clamp re-derivation. In the clamped branch the final
target water height is exactly `target_height`, the volume is recomputed as
`target_width * target_height` and the source water height becomes the
floor of that volume divided by `source_width`; otherwise the sampled
source water height is kept and the target water height is the floor of
`source_width * source_water_height / target_width`. -/
theorem clamp_rederivation (cfg : TaskConfig) (sw tw : ℤ) (fill : ℚ)
    (hmin : 1 ≤ cfg.min_container_width)
    (hh : 0 ≤ cfg.container_height)
    (hsw1 : cfg.min_container_width ≤ sw) (hsw2 : sw ≤ cfg.max_container_width)
    (htw1 : cfg.min_container_width ≤ tw) (htw2 : tw ≤ cfg.max_container_width)
    (hf0 : 0 ≤ cfg.min_fill_ratio) (hf1 : cfg.min_fill_ratio ≤ fill)
    (hf2 : fill ≤ cfg.max_fill_ratio) (hf3 : cfg.max_fill_ratio ≤ 1) :
    (overflows cfg sw tw fill →
        (computeTaskData cfg sw tw fill).target_water_height =
            cfg.container_height ∧
        (computeTaskData cfg sw tw fill).water_volume =
            tw * cfg.container_height ∧
        (computeTaskData cfg sw tw fill).source_water_height =
            ⌊((tw * cfg.container_height : ℤ) : ℚ) / (sw : ℚ)⌋) ∧
    (¬ overflows cfg sw tw fill →
        (computeTaskData cfg sw tw fill).source_water_height =
            pyInt ((cfg.container_height : ℚ) * fill) ∧
        (computeTaskData cfg sw tw fill).target_water_height =
            ⌊((sw * pyInt ((cfg.container_height : ℚ) * fill) : ℤ) : ℚ) /
              (tw : ℚ)⌋) := by
  have hswpos : 0 < sw := lt_of_lt_of_le hmin hsw1
  have htwpos : 0 < tw := lt_of_lt_of_le hmin htw1
  have hfill0 : 0 ≤ fill := le_trans hf0 hf1
  have hthQ : (0 : ℚ) ≤ (cfg.container_height : ℚ) := by exact_mod_cast hh
  have hswh0 : 0 ≤ pyInt ((cfg.container_height : ℚ) * fill) :=
    pyInt_nonneg (mul_nonneg hthQ hfill0)
  constructor
  · intro h
    rw [computeTaskData_of_overflows cfg sw tw fill h]
    have hq0 : (0 : ℚ) ≤ ((tw * cfg.container_height : ℤ) : ℚ) / (sw : ℚ) := by
      apply div_nonneg _ (by exact_mod_cast le_of_lt hswpos)
      push_cast
      exact mul_nonneg (by exact_mod_cast le_of_lt htwpos) hthQ
    exact ⟨rfl, rfl, pyInt_of_nonneg hq0⟩
  · intro h
    rw [computeTaskData_of_not_overflows cfg sw tw fill h]
    have hq0 : (0 : ℚ) ≤
        ((sw * pyInt ((cfg.container_height : ℚ) * fill) : ℤ) : ℚ) /
          (tw : ℚ) := by
      apply div_nonneg _ (by exact_mod_cast le_of_lt htwpos)
      push_cast
      exact mul_nonneg (by exact_mod_cast le_of_lt hswpos)
        (by exact_mod_cast hswh0)
    exact ⟨rfl, pyInt_of_nonneg hq0⟩

/-- Witness for C2 at the default configuration. -/
theorem clamp_rederivation_witness :
    (overflows cfgDefault 100 60 (1 / 2) →
        (computeTaskData cfgDefault 100 60 (1 / 2)).target_water_height = 200 ∧
        (computeTaskData cfgDefault 100 60 (1 / 2)).water_volume = 60 * 200 ∧
        (computeTaskData cfgDefault 100 60 (1 / 2)).source_water_height =
            ⌊((60 * 200 : ℤ) : ℚ) / (100 : ℚ)⌋) ∧
    (¬ overflows cfgDefault 100 60 (1 / 2) →
        (computeTaskData cfgDefault 100 60 (1 / 2)).source_water_height =
            pyInt ((200 : ℚ) * (1 / 2)) ∧
        (computeTaskData cfgDefault 100 60 (1 / 2)).target_water_height =
            ⌊((100 * pyInt ((200 : ℚ) * (1 / 2)) : ℤ) : ℚ) / (60 : ℚ)⌋) :=
  clamp_rederivation cfgDefault 100 60 (1 / 2) (by norm_num [cfgDefault])
    (by norm_num [cfgDefault]) (by norm_num [cfgDefault])
    (by norm_num [cfgDefault]) (by norm_num [cfgDefault])
    (by norm_num [cfgDefault]) (by norm_num [cfgDefault])
    (by norm_num [cfgDefault]) (by norm_num [cfgDefault])
    (by norm_num [cfgDefault])

/-- C3: no overflow. Every state produced under the stated sampling
preconditions satisfies `0 ≤ target_water_height ≤ target_height` and
`0 ≤ source_water_height ≤ source_height`. -/
theorem no_overflow (cfg : TaskConfig) (sw tw : ℤ) (fill : ℚ)
    (hmin : 1 ≤ cfg.min_container_width)
    (hh : 0 ≤ cfg.container_height)
    (hsw1 : cfg.min_container_width ≤ sw) (hsw2 : sw ≤ cfg.max_container_width)
    (htw1 : cfg.min_container_width ≤ tw) (htw2 : tw ≤ cfg.max_container_width)
    (hf0 : 0 ≤ cfg.min_fill_ratio) (hf1 : cfg.min_fill_ratio ≤ fill)
    (hf2 : fill ≤ cfg.max_fill_ratio) (hf3 : cfg.max_fill_ratio ≤ 1) :
    0 ≤ (computeTaskData cfg sw tw fill).target_water_height ∧
    (computeTaskData cfg sw tw fill).target_water_height ≤
        (computeTaskData cfg sw tw fill).target_height ∧
    0 ≤ (computeTaskData cfg sw tw fill).source_water_height ∧
    (computeTaskData cfg sw tw fill).source_water_height ≤
        (computeTaskData cfg sw tw fill).source_height := by
  have hswpos : 0 < sw := lt_of_lt_of_le hmin hsw1
  have htwpos : 0 < tw := lt_of_lt_of_le hmin htw1
  have hswQ : (0 : ℚ) < (sw : ℚ) := by exact_mod_cast hswpos
  have htwQ : (0 : ℚ) < (tw : ℚ) := by exact_mod_cast htwpos
  have hfill0 : 0 ≤ fill := le_trans hf0 hf1
  have hfill1 : fill ≤ 1 := le_trans hf2 hf3
  have hthQ : (0 : ℚ) ≤ (cfg.container_height : ℚ) := by exact_mod_cast hh
  have hprod : (0 : ℚ) ≤ (cfg.container_height : ℚ) * fill :=
    mul_nonneg hthQ hfill0
  have hswh0 : 0 ≤ pyInt ((cfg.container_height : ℚ) * fill) :=
    pyInt_nonneg hprod
  have hswh1 : pyInt ((cfg.container_height : ℚ) * fill) ≤
      cfg.container_height := by
    rw [pyInt_of_nonneg hprod]
    calc ⌊(cfg.container_height : ℚ) * fill⌋
        ≤ ⌊(cfg.container_height : ℚ)⌋ := Int.floor_mono (by nlinarith)
      _ = cfg.container_height := Int.floor_intCast _
  by_cases h : overflows cfg sw tw fill
  · rw [computeTaskData_of_overflows cfg sw tw fill h]
    have hq0 : (0 : ℚ) ≤ ((tw * cfg.container_height : ℤ) : ℚ) / (sw : ℚ) := by
      apply div_nonneg _ (le_of_lt hswQ)
      push_cast
      exact mul_nonneg (le_of_lt htwQ) hthQ
    refine ⟨hh, le_refl _, pyInt_nonneg hq0, ?_⟩
    show pyInt (((tw * cfg.container_height : ℤ) : ℚ) / (sw : ℚ)) ≤
      cfg.container_height
    rw [pyInt_of_nonneg hq0]
    unfold overflows at h
    have hlt : ((tw * cfg.container_height : ℤ) : ℚ) / (sw : ℚ) <
        ((pyInt ((cfg.container_height : ℚ) * fill) : ℤ) : ℚ) := by
      rw [div_lt_iff hswQ]
      have := (lt_div_iff htwQ).mp h
      push_cast at this ⊢
      nlinarith
    have hfl := Int.floor_lt.mpr hlt
    exact le_trans (le_of_lt hfl) hswh1
  · rw [computeTaskData_of_not_overflows cfg sw tw fill h]
    have hq0 : (0 : ℚ) ≤
        ((sw * pyInt ((cfg.container_height : ℚ) * fill) : ℤ) : ℚ) /
          (tw : ℚ) := by
      apply div_nonneg _ (le_of_lt htwQ)
      push_cast
      exact mul_nonneg (le_of_lt hswQ) (by exact_mod_cast hswh0)
    refine ⟨pyInt_nonneg hq0, ?_, hswh0, hswh1⟩
    show pyInt _ ≤ cfg.container_height
    rw [pyInt_of_nonneg hq0]
    unfold overflows at h
    push_neg at h
    calc ⌊((sw * pyInt ((cfg.container_height : ℚ) * fill) : ℤ) : ℚ) /
          (tw : ℚ)⌋
        ≤ ⌊(cfg.container_height : ℚ)⌋ := Int.floor_mono h
      _ = cfg.container_height := Int.floor_intCast _

/-- Witness for C3 at the default configuration. -/
theorem no_overflow_witness :
    0 ≤ (computeTaskData cfgDefault 100 60 (1 / 2)).target_water_height ∧
    (computeTaskData cfgDefault 100 60 (1 / 2)).target_water_height ≤
        (computeTaskData cfgDefault 100 60 (1 / 2)).target_height ∧
    0 ≤ (computeTaskData cfgDefault 100 60 (1 / 2)).source_water_height ∧
    (computeTaskData cfgDefault 100 60 (1 / 2)).source_water_height ≤
        (computeTaskData cfgDefault 100 60 (1 / 2)).source_height :=
  no_overflow cfgDefault 100 60 (1 / 2) (by norm_num [cfgDefault])
    (by norm_num [cfgDefault]) (by norm_num [cfgDefault])
    (by norm_num [cfgDefault]) (by norm_num [cfgDefault])
    (by norm_num [cfgDefault]) (by norm_num [cfgDefault])
    (by norm_num [cfgDefault]) (by norm_num [cfgDefault])
    (by norm_num [cfgDefault])

/-- Python `random.randint(lo, hi)`: raises `ValueError: empty range for
randrange()` when `hi < lo`, otherwise returns a value of `[lo, hi]`; the
abstract draw is mapped into the range. -/
def randint (lo hi : ℤ) (draw : ℤ) : Except String ℤ :=
  if hi < lo then Except.error "empty range for randrange"
  else Except.ok (lo + draw.emod (hi - lo + 1))

/-- Python `random.uniform(a, b)`, which computes `a + (b - a) * u` for a
unit draw `u` and does not require `a ≤ b`. -/
def uniform (a b u : ℚ) : ℚ :=
  a + (b - a) * u

/-- The rejection loop of lines 61-64: while the drawn target width is
within 20 of the source width, redraw. The draw list is the sequence of
remaining draws; an exhausted list means the loop is still running, encoded
as `Except.ok none`. -/
def resampleWidth (lo hi source_width target_width : ℤ) :
    List ℤ → Except String (Option ℤ)
  | [] =>
    if |target_width - source_width| < 20 then Except.ok none
    else Except.ok (some target_width)
  | d :: rest =>
    if |target_width - source_width| < 20 then
      match randint lo hi d with
      | Except.error e => Except.error e
      | Except.ok tw2 => resampleWidth lo hi source_width tw2 rest
    else Except.ok (some target_width)

/-- C4: width separation. Whenever the resampling loop terminates and
yields a target width, that width differs from the source width by at
least 20, for every outcome of the random draws. -/
theorem width_separation (lo hi sw tw w : ℤ) (ds : List ℤ)
    (h : resampleWidth lo hi sw tw ds = Except.ok (some w)) :
    20 ≤ |w - sw| := by
  induction ds generalizing tw with
  | nil =>
    unfold resampleWidth at h
    split_ifs at h with hlt
    · simp at h
    · simp only [Except.ok.injEq, Option.some.injEq] at h
      subst h
      exact le_of_not_lt hlt
  | cons d rest ih =>
    unfold resampleWidth at h
    split_ifs at h with hlt
    · cases hr : randint lo hi d with
      | error e =>
        rw [hr] at h
        simp at h
      | ok tw2 =>
        rw [hr] at h
        exact ih tw2 h
    · simp only [Except.ok.injEq, Option.some.injEq] at h
      subst h
      exact le_of_not_lt hlt

/-- Witness for C4: the loop body never runs when the first draw is already
separated. -/
theorem width_separation_witness : 20 ≤ |(100 : ℤ) - 60| :=
  width_separation 60 150 60 100 100 [] (by rfl)

/-- Modelled from src/config.py: `TaskConfig` is a plain pydantic model
whose fields carry no cross-field constraint, so constructing it performs
only per-field type validation, which the Lean field types already
guarantee. Validation therefore accepts every configuration value. -/
def validateTaskConfig (cfg : TaskConfig) : Except String TaskConfig :=
  Except.ok cfg

/-- The full sampling pipeline of `_generate_task_data` with the random
draws explicit: a draw for the source width, a first draw for the target
width, a list of further target-width draws consumed by the rejection
loop, and a unit draw for the fill ratio. `Except.ok none` encodes a
rejection loop that is still running after all provided draws. -/
def generateTaskData (cfg : TaskConfig) (d1 d2 : ℤ) (ds : List ℤ) (u : ℚ) :
    Except String (Option PhysicalState) :=
  match randint cfg.min_container_width cfg.max_container_width d1 with
  | Except.error e => Except.error e
  | Except.ok source_width =>
    match randint cfg.min_container_width cfg.max_container_width d2 with
    | Except.error e => Except.error e
    | Except.ok tw0 =>
      match resampleWidth cfg.min_container_width cfg.max_container_width
          source_width tw0 ds with
      | Except.error e => Except.error e
      | Except.ok none => Except.ok none
      | Except.ok (some target_width) =>
        let source_fill := uniform cfg.min_fill_ratio cfg.max_fill_ratio u
        Except.ok (some (computeTaskData cfg source_width target_width
          source_fill))

/-- Configuration with contradictory width bounds. -/
def cfgBadWidth : TaskConfig :=
  { min_container_width := 10
    max_container_width := 5
    container_height := 200
    min_fill_ratio := 3 / 10
    max_fill_ratio := 8 / 10 }

/-- Configuration with contradictory fill-ratio bounds. -/
def cfgBadFill : TaskConfig :=
  { min_container_width := 60
    max_container_width := 150
    container_height := 200
    min_fill_ratio := 9 / 10
    max_fill_ratio := 1 / 10 }

/-- Counterexample to C9: both contradictory configurations pass
construction unrejected; the width contradiction then fails inside the
generator during the first random draw, and the fill-ratio contradiction
is never detected at all, sampling succeeding silently. -/
theorem config_validation_not_eager :
    validateTaskConfig cfgBadWidth = Except.ok cfgBadWidth ∧
    generateTaskData cfgBadWidth 0 0 [] 0 =
      Except.error "empty range for randrange" ∧
    validateTaskConfig cfgBadFill = Except.ok cfgBadFill ∧
    (generateTaskData cfgBadFill 0 40 [] (1 / 2)).isOk = true :=
  ⟨rfl, rfl, rfl, rfl⟩

/-- C9 amended: there is no eager validation. A configuration whose width
bounds are contradictory is accepted by construction, and
`_generate_task_data` is entered and fails with a ValueError at the first
`randint` draw. -/
theorem no_eager_validation (cfg : TaskConfig) (d1 d2 : ℤ) (ds : List ℤ)
    (u : ℚ) (h : cfg.max_container_width < cfg.min_container_width) :
    validateTaskConfig cfg = Except.ok cfg ∧
    generateTaskData cfg d1 d2 ds u =
      Except.error "empty range for randrange" := by
  refine ⟨rfl, ?_⟩
  simp [generateTaskData, randint, h]

/-- Witness for the amended C9 at the contradictory width configuration. -/
theorem no_eager_validation_witness :
    validateTaskConfig cfgBadWidth = Except.ok cfgBadWidth ∧
    generateTaskData cfgBadWidth 2 3 [4] (1 / 3) =
      Except.error "empty range for randrange" :=
  no_eager_validation cfgBadWidth 2 3 [4] (1 / 3) (by norm_num [cfgBadWidth])

/-- Eased progress of lines 277-279: linear progress `i / (frames - 1)`
reshaped by the ease-out curve. -/
def transitionProgress (frames i : ℕ) : ℚ :=
  1 - (1 - (i : ℚ) / ((frames : ℚ) - 1)) ^ 2

/-- Line 281: `current_source = int(source_water * (1 - progress))`. -/
def transitionSourceHeight (source_water : ℤ) (frames i : ℕ) : ℤ :=
  pyInt ((source_water : ℚ) * (1 - transitionProgress frames i))

/-- Line 282: `current_target = int(target_water * progress)`. -/
def transitionTargetHeight (target_water : ℤ) (frames i : ℕ) : ℤ :=
  pyInt ((target_water : ℚ) * transitionProgress frames i)

theorem pyInt_zero : pyInt 0 = 0 := by
  unfold pyInt
  norm_num

theorem transitionProgress_mem (frames i : ℕ) (h2 : 2 ≤ frames)
    (hi : i < frames) :
    0 ≤ transitionProgress frames i ∧ transitionProgress frames i ≤ 1 := by
  unfold transitionProgress
  have hF : (2 : ℚ) ≤ (frames : ℚ) := by exact_mod_cast h2
  have hD0 : (0 : ℚ) < (frames : ℚ) - 1 := by linarith
  have hp0 : 0 ≤ (i : ℚ) / ((frames : ℚ) - 1) :=
    div_nonneg (by positivity) (le_of_lt hD0)
  have hp1 : (i : ℚ) / ((frames : ℚ) - 1) ≤ 1 := by
    rw [div_le_one hD0]
    have : (i : ℚ) + 1 ≤ (frames : ℚ) := by exact_mod_cast hi
    linarith
  constructor
  · nlinarith
  · nlinarith [sq_nonneg (1 - (i : ℚ) / ((frames : ℚ) - 1))]

theorem transitionProgress_mono (frames i j : ℕ) (h2 : 2 ≤ frames)
    (hij : i ≤ j) (hj : j < frames) :
    transitionProgress frames i ≤ transitionProgress frames j := by
  unfold transitionProgress
  have hF : (2 : ℚ) ≤ (frames : ℚ) := by exact_mod_cast h2
  have hD0 : (0 : ℚ) < (frames : ℚ) - 1 := by linarith
  have hpp : (i : ℚ) / ((frames : ℚ) - 1) ≤ (j : ℚ) / ((frames : ℚ) - 1) := by
    exact (div_le_div_right hD0).mpr (by exact_mod_cast hij)
  have hpj : (j : ℚ) / ((frames : ℚ) - 1) ≤ 1 := by
    rw [div_le_one hD0]
    have : (j : ℚ) + 1 ≤ (frames : ℚ) := by exact_mod_cast hj
    linarith
  have hsq : (1 - (j : ℚ) / ((frames : ℚ) - 1)) ^ 2 ≤
      (1 - (i : ℚ) / ((frames : ℚ) - 1)) ^ 2 := by
    apply pow_le_pow_left (by linarith) (by linarith)
  linarith

/-- Counterexample to C5: the code truncates with `int()`, not
round-to-nearest. At 30 transition frames, frame index 1 and final target
water height 100, the eased progress is 57/841, the interpolant is
5700/841 which is about 6.78, the code renders 6, round-to-nearest gives
7. -/
theorem transition_not_round :
    transitionTargetHeight 100 30 1 = 6 ∧
    round ((100 : ℚ) * transitionProgress 30 1) = 7 ∧
    transitionTargetHeight 100 30 1 ≠
      round ((100 : ℚ) * transitionProgress 30 1) := by
  have hp : transitionProgress 30 1 = 57 / 841 := by
    unfold transitionProgress
    norm_num
  have h1 : transitionTargetHeight 100 30 1 = 6 := by
    unfold transitionTargetHeight
    rw [hp, pyInt_of_nonneg (by norm_num), Int.floor_eq_iff]
    norm_num
  have h2 : round ((100 : ℚ) * transitionProgress 30 1) = 7 := by
    rw [hp, round_eq, Int.floor_eq_iff]
    norm_num
  exact ⟨h1, h2, by rw [h1, h2]; norm_num⟩

/-- C5 amended: for every transition frame index `i` below
`transition_frames`, with eased progress `1 - (1 - i/(frames-1))^2`, the
rendered source and target water heights are the floor (int truncation) of
the eased linear interpolants, not their round-to-nearest. -/
theorem transition_heights_floor (sw tw : ℤ) (frames i : ℕ)
    (h2 : 2 ≤ frames) (hi : i < frames) (hsw : 0 ≤ sw) (htw : 0 ≤ tw) :
    transitionSourceHeight sw frames i =
      ⌊(sw : ℚ) * (1 - (1 - (1 - (i : ℚ) / ((frames : ℚ) - 1)) ^ 2))⌋ ∧
    transitionTargetHeight tw frames i =
      ⌊(tw : ℚ) * (1 - (1 - (i : ℚ) / ((frames : ℚ) - 1)) ^ 2)⌋ := by
  obtain ⟨hp0, hp1⟩ := transitionProgress_mem frames i h2 hi
  constructor
  · unfold transitionSourceHeight
    rw [pyInt_of_nonneg (mul_nonneg (by exact_mod_cast hsw) (by linarith))]
    rfl
  · unfold transitionTargetHeight
    rw [pyInt_of_nonneg (mul_nonneg (by exact_mod_cast htw) hp0)]
    rfl

/-- Witness for the amended C5 at 30 frames, index 1, heights 100. -/
theorem transition_heights_floor_witness :
    transitionSourceHeight 100 30 1 =
      ⌊(100 : ℚ) * (1 - (1 - (1 - (1 : ℚ) / ((30 : ℚ) - 1)) ^ 2))⌋ ∧
    transitionTargetHeight 100 30 1 =
      ⌊(100 : ℚ) * (1 - (1 - (1 : ℚ) / ((30 : ℚ) - 1)) ^ 2)⌋ := by
  have h := transition_heights_floor 100 100 30 1 (by norm_num) (by norm_num)
    (by norm_num) (by norm_num)
  exact_mod_cast h

/-- C6: animation continuity at the endpoints. The first transition frame
renders the full initial source water height and an empty target; the last
transition frame renders an empty source and the full final target water
height. The match is exact, hence within the claimed rounding tolerance of
one unit. -/
theorem transition_endpoint_continuity (sw tw : ℤ) (frames : ℕ)
    (h2 : 2 ≤ frames) :
    transitionSourceHeight sw frames 0 = sw ∧
    transitionTargetHeight tw frames 0 = 0 ∧
    transitionSourceHeight sw frames (frames - 1) = 0 ∧
    transitionTargetHeight tw frames (frames - 1) = tw := by
  have h0 : transitionProgress frames 0 = 0 := by
    unfold transitionProgress
    norm_num
  have h1le : 1 ≤ frames := le_trans (by norm_num) h2
  have hD0 : ((frames : ℚ) - 1) ≠ 0 := by
    have : (2 : ℚ) ≤ (frames : ℚ) := by exact_mod_cast h2
    intro hc
    rw [sub_eq_zero] at hc
    rw [hc] at this
    norm_num at this
  have h1 : transitionProgress frames (frames - 1) = 1 := by
    unfold transitionProgress
    rw [Nat.cast_sub h1le]
    rw [Nat.cast_one, div_self hD0]
    norm_num
  refine ⟨?_, ?_, ?_, ?_⟩
  · unfold transitionSourceHeight
    simp [h0, pyInt_intCast]
  · unfold transitionTargetHeight
    simp [h0, pyInt_zero]
  · unfold transitionSourceHeight
    simp [h1, pyInt_zero]
  · unfold transitionTargetHeight
    simp [h1, pyInt_intCast]

/-- Witness for C6 at 30 frames and the worked spec heights. -/
theorem transition_endpoint_continuity_witness :
    transitionSourceHeight 100 30 0 = 100 ∧
    transitionTargetHeight 166 30 0 = 0 ∧
    transitionSourceHeight 100 30 (30 - 1) = 0 ∧
    transitionTargetHeight 166 30 (30 - 1) = 166 :=
  transition_endpoint_continuity 100 166 30 (by norm_num)

/-- C10: monotone animated water heights. Along the transition the
truncated source height is non-increasing and the truncated target height
is non-decreasing in the frame index. -/
theorem transition_monotone (sw tw : ℤ) (frames i j : ℕ)
    (h2 : 2 ≤ frames) (hij : i ≤ j) (hj : j < frames)
    (hsw : 0 ≤ sw) (htw : 0 ≤ tw) :
    transitionSourceHeight sw frames j ≤ transitionSourceHeight sw frames i ∧
    transitionTargetHeight tw frames i ≤ transitionTargetHeight tw frames j := by
  have hmono := transitionProgress_mono frames i j h2 hij hj
  constructor
  · unfold transitionSourceHeight
    apply pyInt_mono
    apply mul_le_mul_of_nonneg_left _ (by exact_mod_cast hsw)
    linarith
  · unfold transitionTargetHeight
    apply pyInt_mono
    exact mul_le_mul_of_nonneg_left hmono (by exact_mod_cast htw)

/-- Witness for C10 at 30 frames, indices 3 and 7. -/
theorem transition_monotone_witness :
    transitionSourceHeight 100 30 7 ≤ transitionSourceHeight 100 30 3 ∧
    transitionTargetHeight 60 30 3 ≤ transitionTargetHeight 60 30 7 :=
  transition_monotone 100 60 30 3 7 (by norm_num) (by norm_num) (by norm_num)
    (by norm_num) (by norm_num)

/-- Phase tag of one animation frame of `_generate_video`: the held initial
image, the interpolated transfer frame of index `i` (rendered with
`transitionSourceHeight` and `transitionTargetHeight` at `i`), or the held
final image. The raster content is abstracted away; only the phase
structure is modelled. -/
inductive Frame where
  | first : Frame
  | transfer : ℕ → Frame
  | final : Frame
deriving DecidableEq

/-- The frame list built by `_generate_video` (lines 264-289): hold the
initial image for `hold_frames = 5` frames, emit the
`animation_frames = 30` interpolated frames in index order, then hold the
final image for `hold_frames * 2` frames. -/
def generateVideoFrames : List Frame :=
  let hold_frames := 5
  let animation_frames := 30
  List.replicate hold_frames Frame.first ++
    (List.range animation_frames).map Frame.transfer ++
    List.replicate (hold_frames * 2) Frame.final

/-- C7: animation phase structure. The sequence has `3 * 5 + 30` frames;
positions 0 to 4 hold the initial image, positions 5 to 34 carry the
transfer frames in index order, and positions 35 to 44 hold the final
image. -/
theorem video_phase_structure :
    generateVideoFrames.length = 3 * 5 + 30 ∧
    ∀ j, j < 45 → generateVideoFrames.get? j =
      some (if j < 5 then Frame.first
        else if j < 35 then Frame.transfer (j - 5) else Frame.final) := by
  decide

/-- Witness for C7 at position 7, the third transfer frame. -/
theorem video_phase_structure_witness :
    generateVideoFrames.get? 7 =
      some (if 7 < 5 then Frame.first
        else if 7 < 35 then Frame.transfer (7 - 5) else Frame.final) :=
  video_phase_structure.2 7 (by norm_num)

/-- The observable size behaviour of
`VideoGenerator.create_video_from_frames` (core/video_utils.py, lines
34-62). A frame is abstracted to its pixel size; the result records, for
each written frame, its final size and whether a LANCZOS resize was
applied. An empty frame list raises `ValueError("No frames provided")`;
otherwise the target size is the explicit `size` argument when given, else
the first frame size, and every frame of a different size is resized to
it. -/
def create_video_from_frames (frames : List (ℕ × ℕ))
    (size0 : Option (ℕ × ℕ)) : Except String (List ((ℕ × ℕ) × Bool)) :=
  match frames with
  | [] => Except.error "No frames provided"
  | f0 :: _ =>
    let sz := size0.getD f0
    Except.ok (frames.map fun f =>
      if f ≠ sz then (sz, true) else (f, false))

/-- Counterexample to C8: two frames of mismatched sizes, no explicit size
request. The call is not rejected; it succeeds and silently resizes the
second frame to the first frame size. -/
theorem frame_mismatch_not_rejected :
    create_video_from_frames [(2, 2), (3, 3)] none =
      Except.ok [((2, 2), false), ((2, 2), true)] := by
  rfl

/-- C8 amended: `create_video_from_frames` rejects only an empty frame
list. Mismatched frame sizes are never rejected: every frame whose size
differs from the target size (the explicit size argument when given, else
the first frame size) is silently resized with a LANCZOS filter,
unconditionally rather than as an opt-in recovery path. -/
theorem frames_silently_resized (frames : List (ℕ × ℕ))
    (size0 : Option (ℕ × ℕ)) (f0 : ℕ × ℕ) (h : frames.head? = some f0) :
    create_video_from_frames frames size0 =
      Except.ok (frames.map fun f =>
        if f ≠ size0.getD f0 then (size0.getD f0, true) else (f, false)) := by
  cases frames with
  | nil => simp at h
  | cons a l =>
    simp only [List.head?_cons, Option.some.injEq] at h
    subst h
    rfl

/-- Witness for the amended C8: an explicitly requested size, one matching
and one mismatched frame. -/
theorem frames_silently_resized_witness :
    create_video_from_frames [(2, 2), (4, 4)] (some (5, 5)) =
      Except.ok ([(2, 2), (4, 4)].map fun f =>
        if f ≠ (some (5, 5)).getD (2, 2) then ((some (5, 5)).getD (2, 2), true)
        else (f, false)) :=
  frames_silently_resized [(2, 2), (4, 4)] (some (5, 5)) (2, 2) (by rfl)

end WaterLevel
